import Mathlib

/-!
Verification of the FOOTBALL league manager (`src/football_league.py`).

The program keeps its whole state in four session-state fields:
`teams` (dict team-name → list of player names), `matches` (list of match
records), `league_table` (dict team-name → standings row), and
`player_stats` (dict player-name → {goals, assists, team}).

We embed Python dicts as association lists (`List (key × value)`): a dict
item assignment to an existing key maps the matching entry in place, an
assignment to a fresh key appends at the end (Python dicts preserve
insertion order), and reading a missing key raises `KeyError`, which we
model by returning `none` from the enclosing operation.
-/

namespace FootballLeague

abbrev Team := String
abbrev Player := String

/-- One row of the league table, as in `get_default_league_table`
(`src/football_league.py` lines 66-73). -/
structure StandingsRow where
  matches_played : Nat
  points : Nat
  goals_scored : Nat
  wins : Nat
  losses : Nat
  draws : Nat
deriving DecidableEq, Repr

/-- The zeroed row `{'matches_played': 0, 'points': 0, 'goals_scored': 0,
'wins': 0, 'losses': 0, 'draws': 0}`. -/
def zeroRow : StandingsRow :=
  { matches_played := 0, points := 0, goals_scored := 0
    wins := 0, losses := 0, draws := 0 }

abbrev LeagueTable := List (Team × StandingsRow)

/-- `get_default_teams` (lines 57-64): the default roster. -/
def get_default_teams : List (Team × List Player) :=
  [("Team A", ["Player A1", "Player A2", "Player A3", "Player A4", "Player A5"]),
   ("Team B", ["Player B1", "Player B2", "Player B3", "Player B4", "Player B5"]),
   ("Team C", ["Player C1", "Player C2", "Player C3", "Player C4", "Player C5"]),
   ("Team D", ["Player D1", "Player D2", "Player D3", "Player D4", "Player D5"])]

/-- `get_default_league_table` (lines 66-73): every default team mapped to
the zeroed row. -/
def get_default_league_table : LeagueTable :=
  [("Team A", zeroRow), ("Team B", zeroRow), ("Team C", zeroRow), ("Team D", zeroRow)]

/-- Reading `d[k]` from a Python dict modelled as an association list:
the first entry with the given key, if any. -/
def lookupTable : LeagueTable → Team → Option StandingsRow
  | [], _ => none
  | e :: t, x => if e.1 = x then some e.2 else lookupTable t x

/-- In-place mutation `table[team][field] += ...` of a Python dict entry:
apply `f` to the value of every entry whose key is `team` (keys are unique
in a dict, so at most one entry is affected in any state reachable from
the defaults). -/
def tableUpdate (t : LeagueTable) (team : Team) (f : StandingsRow → StandingsRow) :
    LeagueTable :=
  t.map (fun e => if e.1 = team then (e.1, f e.2) else e)

/-- The body of `update_league_table` (lines 126-151): the sequence of
in-place `+=` mutations on the home and away rows. -/
def update_league_table_core (t : LeagueTable) (home_team away_team : Team)
    (home_score away_score : Nat) : LeagueTable :=
  let t1 := tableUpdate t home_team
    (fun r => { r with matches_played := r.matches_played + 1 })
  let t2 := tableUpdate t1 away_team
    (fun r => { r with matches_played := r.matches_played + 1 })
  let t3 := tableUpdate t2 home_team
    (fun r => { r with goals_scored := r.goals_scored + home_score })
  let t4 := tableUpdate t3 away_team
    (fun r => { r with goals_scored := r.goals_scored + away_score })
  if home_score > away_score then
    -- Home team wins
    tableUpdate (tableUpdate (tableUpdate t4 home_team
      (fun r => { r with points := r.points + 3 })) home_team
      (fun r => { r with wins := r.wins + 1 })) away_team
      (fun r => { r with losses := r.losses + 1 })
  else if away_score > home_score then
    -- Away team wins
    tableUpdate (tableUpdate (tableUpdate t4 away_team
      (fun r => { r with points := r.points + 3 })) away_team
      (fun r => { r with wins := r.wins + 1 })) home_team
      (fun r => { r with losses := r.losses + 1 })
  else
    -- Draw
    tableUpdate (tableUpdate (tableUpdate (tableUpdate t4 home_team
      (fun r => { r with points := r.points + 1 })) away_team
      (fun r => { r with points := r.points + 1 })) home_team
      (fun r => { r with draws := r.draws + 1 })) away_team
      (fun r => { r with draws := r.draws + 1 })

/-- `update_league_table` (lines 126-151).  The Python function indexes
`league_table[home_team]` and `league_table[away_team]`; a missing key
raises `KeyError`, modelled as `none`.  When both keys are present the
mutations of the body apply. -/
def update_league_table (t : LeagueTable) (home_team away_team : Team)
    (home_score away_score : Nat) : Option LeagueTable :=
  if (lookupTable t home_team).isSome && (lookupTable t away_team).isSome then
    some (update_league_table_core t home_team away_team home_score away_score)
  else
    none

/-- The net effect of one `update_league_table` call on the row stored
under key `x`: the composition of the per-field mutations that hit that
key, in the order the Python statements execute. -/
def rowDelta (home_team away_team : Team) (home_score away_score : Nat)
    (x : Team) (r : StandingsRow) : StandingsRow :=
  let r1 := if x = home_team then { r with matches_played := r.matches_played + 1 } else r
  let r2 := if x = away_team then { r1 with matches_played := r1.matches_played + 1 } else r1
  let r3 := if x = home_team then { r2 with goals_scored := r2.goals_scored + home_score } else r2
  let r4 := if x = away_team then { r3 with goals_scored := r3.goals_scored + away_score } else r3
  if home_score > away_score then
    let r5 := if x = home_team then { r4 with points := r4.points + 3 } else r4
    let r6 := if x = home_team then { r5 with wins := r5.wins + 1 } else r5
    if x = away_team then { r6 with losses := r6.losses + 1 } else r6
  else if away_score > home_score then
    let r5 := if x = away_team then { r4 with points := r4.points + 3 } else r4
    let r6 := if x = away_team then { r5 with wins := r5.wins + 1 } else r5
    if x = home_team then { r6 with losses := r6.losses + 1 } else r6
  else
    let r5 := if x = home_team then { r4 with points := r4.points + 1 } else r4
    let r6 := if x = away_team then { r5 with points := r5.points + 1 } else r5
    let r7 := if x = home_team then { r6 with draws := r6.draws + 1 } else r6
    if x = away_team then { r7 with draws := r7.draws + 1 } else r7

theorem lookupTable_tableUpdate (t : LeagueTable) (team : Team)
    (f : StandingsRow → StandingsRow) (x : Team) :
    lookupTable (tableUpdate t team f) x =
      if x = team then (lookupTable t x).map f else lookupTable t x := by
  induction t with
  | nil => by_cases hx : x = team <;> simp [lookupTable, tableUpdate, hx]
  | cons e t ih =>
    rcases e with ⟨y, r⟩
    by_cases hyt : y = team <;> by_cases hyx : y = x <;> by_cases hxt : x = team <;>
      simp_all [lookupTable, tableUpdate]

/-- The single lemma from which the table claims flow: what one call of
`update_league_table` does to the row stored under any key. -/
theorem lookupTable_update (t : LeagueTable) (h a : Team) (hs aws : Nat) (x : Team) :
    lookupTable (update_league_table_core t h a hs aws) x =
      (lookupTable t x).map (rowDelta h a hs aws x) := by
  unfold update_league_table_core rowDelta
  by_cases hxh : x = h
  · subst hxh
    by_cases hxa : x = a
    · subst hxa
      cases hl : lookupTable t x <;>
        by_cases h1 : hs > aws <;> by_cases h2 : aws > hs <;>
          simp [lookupTable_tableUpdate, hl, h1, h2]
    · cases hl : lookupTable t x <;>
        by_cases h1 : hs > aws <;> by_cases h2 : aws > hs <;>
          simp [lookupTable_tableUpdate, hl, hxa, h1, h2]
  · by_cases hxa : x = a
    · subst hxa
      cases hl : lookupTable t x <;>
        by_cases h1 : hs > aws <;> by_cases h2 : aws > hs <;>
          simp [lookupTable_tableUpdate, hl, hxh, h1, h2]
    · cases hl : lookupTable t x <;>
        by_cases h1 : hs > aws <;> by_cases h2 : aws > hs <;>
          simp [lookupTable_tableUpdate, hl, hxh, hxa, h1, h2]

/-- `update_league_table` never touches rows other than the two named teams. -/
theorem rowDelta_other (h a : Team) (hs aws : Nat) (x : Team) (r : StandingsRow)
    (hxh : x ≠ h) (hxa : x ≠ a) : rowDelta h a hs aws x r = r := by
  unfold rowDelta
  by_cases h1 : hs > aws <;> by_cases h2 : aws > hs <;> simp [hxh, hxa, h1, h2]

/-- The standings-row invariant of the spec. -/
def Inv (r : StandingsRow) : Prop :=
  r.wins + r.losses + r.draws = r.matches_played ∧ r.points = 3 * r.wins + r.draws

instance (r : StandingsRow) : Decidable (Inv r) := by unfold Inv; infer_instance

theorem rowDelta_inv (h a : Team) (hs aws : Nat) (x : Team) (r : StandingsRow)
    (hr : Inv r) : Inv (rowDelta h a hs aws x r) := by
  unfold Inv rowDelta at *
  by_cases hxh : x = h
  · subst hxh
    by_cases hxa : x = a
    · subst hxa
      by_cases h1 : hs > aws <;> by_cases h2 : aws > hs <;>
        simp [h1, h2] <;> omega
    · by_cases h1 : hs > aws <;> by_cases h2 : aws > hs <;>
        simp [hxa, h1, h2] <;> omega
  · by_cases hxa : x = a
    · subst hxa
      by_cases h1 : hs > aws <;> by_cases h2 : aws > hs <;>
        simp [hxh, h1, h2] <;> omega
    · by_cases h1 : hs > aws <;> by_cases h2 : aws > hs <;>
        simp [hxh, hxa, h1, h2] <;> omega

/-- How one call changes the `points` field of the row stored under `x`. -/
theorem rowDelta_points (h a : Team) (hs aws : Nat) (x : Team) (r : StandingsRow) :
    (rowDelta h a hs aws x r).points = r.points +
      (if hs > aws then (if x = h then 3 else 0)
       else if aws > hs then (if x = a then 3 else 0)
       else ((if x = h then 1 else 0) + (if x = a then 1 else 0))) := by
  unfold rowDelta
  by_cases hxh : x = h
  · subst hxh
    by_cases hxa : x = a
    · subst hxa
      by_cases h1 : hs > aws <;> by_cases h2 : aws > hs <;> simp [h1, h2]
    · by_cases h1 : hs > aws <;> by_cases h2 : aws > hs <;> simp [hxa, h1, h2]
  · by_cases hxa : x = a
    · subst hxa
      by_cases h1 : hs > aws <;> by_cases h2 : aws > hs <;> simp [hxh, h1, h2]
    · by_cases h1 : hs > aws <;> by_cases h2 : aws > hs <;> simp [hxh, hxa, h1, h2]

theorem tableUpdate_keys (t : LeagueTable) (team : Team) (f : StandingsRow → StandingsRow) :
    (tableUpdate t team f).map Prod.fst = t.map Prod.fst := by
  induction t with
  | nil => rfl
  | cons e t ih =>
    by_cases he : e.1 = team <;> simp [tableUpdate, he] <;>
      simpa [tableUpdate] using ih

theorem update_league_table_core_keys (t : LeagueTable) (h a : Team) (hs aws : Nat) :
    (update_league_table_core t h a hs aws).map Prod.fst = t.map Prod.fst := by
  unfold update_league_table_core
  by_cases h1 : hs > aws <;> by_cases h2 : aws > hs <;>
    simp [h1, h2, tableUpdate_keys]

theorem lookupTable_isSome_update (t : LeagueTable) (h a : Team) (hs aws : Nat) (x : Team) :
    (lookupTable (update_league_table_core t h a hs aws) x).isSome =
      (lookupTable t x).isSome := by
  rw [lookupTable_update]
  cases lookupTable t x <;> simp

/-- `TableInv` holds when every stored row satisfies the spec invariant. -/
def TableInv (t : LeagueTable) : Prop :=
  ∀ x r, lookupTable t x = some r → Inv r

theorem TableInv_update (t t2 : LeagueTable) (h a : Team) (hs aws : Nat)
    (hup : update_league_table t h a hs aws = some t2) (ht : TableInv t) :
    TableInv t2 := by
  unfold update_league_table at hup
  split at hup
  · cases hup
    intro x r hr
    rw [lookupTable_update] at hr
    cases hl : lookupTable t x with
    | none => rw [hl] at hr; cases hr
    | some r0 =>
      rw [hl] at hr
      have hr2 : rowDelta h a hs aws x r0 = r := by simpa using hr
      rw [← hr2]
      exact rowDelta_inv _ _ _ _ _ _ (ht x r0 hl)
  · cases hup

/-- Total points held by all teams of the table. -/
def sumPoints (t : LeagueTable) : Nat := (t.map (fun e => e.2.points)).sum

@[simp] theorem sumPoints_nil : sumPoints [] = 0 := rfl

@[simp] theorem sumPoints_cons (e : Team × StandingsRow) (t : LeagueTable) :
    sumPoints (e :: t) = e.2.points + sumPoints t := by
  simp [sumPoints]

theorem lookupTable_eq_none_of_not_mem (t : LeagueTable) (x : Team)
    (hx : x ∉ t.map Prod.fst) : lookupTable t x = none := by
  induction t with
  | nil => rfl
  | cons e t ih =>
    simp only [List.map_cons, List.mem_cons, not_or] at hx
    have hne : e.1 ≠ x := fun h => hx.1 h.symm
    simp [lookupTable, hne, ih hx.2]

theorem tableUpdate_of_lookup_none (t : LeagueTable) (team : Team)
    (f : StandingsRow → StandingsRow) (h : lookupTable t team = none) :
    tableUpdate t team f = t := by
  induction t with
  | nil => rfl
  | cons e t ih =>
    by_cases he : e.1 = team
    · simp [lookupTable, he] at h
    · simp only [lookupTable, he, if_neg, if_false] at h
      have := ih h
      simp only [tableUpdate] at this ⊢
      simp [he, this]

theorem lookupTable_isSome_tableUpdate (t : LeagueTable) (team : Team)
    (f : StandingsRow → StandingsRow) (x : Team) :
    (lookupTable (tableUpdate t team f) x).isSome = (lookupTable t x).isSome := by
  rw [lookupTable_tableUpdate]
  by_cases hx : x = team
  · cases hl : lookupTable t x <;> simp [hx, hl]
  · simp [hx]

theorem sumPoints_tableUpdate_const (t : LeagueTable) (team : Team)
    (f : StandingsRow → StandingsRow) (hf : ∀ r, (f r).points = r.points) :
    sumPoints (tableUpdate t team f) = sumPoints t := by
  induction t with
  | nil => rfl
  | cons e t ih =>
    simp only [tableUpdate, List.map_cons] at ih ⊢
    by_cases he : e.1 = team <;> simp [he, hf, ih]

theorem sumPoints_tableUpdate_add (t : LeagueTable) (team : Team)
    (f : StandingsRow → StandingsRow) (k : Nat)
    (hf : ∀ r, (f r).points = r.points + k)
    (hnd : (t.map Prod.fst).Nodup) (hmem : (lookupTable t team).isSome) :
    sumPoints (tableUpdate t team f) = sumPoints t + k := by
  induction t with
  | nil => simp [lookupTable] at hmem
  | cons e t ih =>
    rcases e with ⟨y, r⟩
    simp only [List.map_cons, List.nodup_cons] at hnd
    by_cases hy : y = team
    · subst hy
      have hnone : lookupTable t y = none := lookupTable_eq_none_of_not_mem _ _ hnd.1
      simp only [tableUpdate, List.map_cons, if_pos rfl]
      rw [show (List.map (fun e => if e.1 = y then (e.1, f e.2) else e) t) =
            tableUpdate t y f from rfl,
          tableUpdate_of_lookup_none _ _ _ hnone]
      simp [hf]
      omega
    · have hmem2 : (lookupTable t team).isSome := by
        simpa [lookupTable, hy] using hmem
      simp only [tableUpdate, List.map_cons] at ih ⊢
      simp [hy, ih hnd.2 hmem2]
      omega

theorem sumPoints_tableUpdate_mp (t : LeagueTable) (team : Team) :
    sumPoints (tableUpdate t team
      (fun r => { r with matches_played := r.matches_played + 1 })) = sumPoints t :=
  sumPoints_tableUpdate_const _ _ _ (fun _ => rfl)

theorem sumPoints_tableUpdate_gs (t : LeagueTable) (team : Team) (k : Nat) :
    sumPoints (tableUpdate t team
      (fun r => { r with goals_scored := r.goals_scored + k })) = sumPoints t :=
  sumPoints_tableUpdate_const _ _ _ (fun _ => rfl)

theorem sumPoints_tableUpdate_wins (t : LeagueTable) (team : Team) :
    sumPoints (tableUpdate t team
      (fun r => { r with wins := r.wins + 1 })) = sumPoints t :=
  sumPoints_tableUpdate_const _ _ _ (fun _ => rfl)

theorem sumPoints_tableUpdate_losses (t : LeagueTable) (team : Team) :
    sumPoints (tableUpdate t team
      (fun r => { r with losses := r.losses + 1 })) = sumPoints t :=
  sumPoints_tableUpdate_const _ _ _ (fun _ => rfl)

theorem sumPoints_tableUpdate_draws (t : LeagueTable) (team : Team) :
    sumPoints (tableUpdate t team
      (fun r => { r with draws := r.draws + 1 })) = sumPoints t :=
  sumPoints_tableUpdate_const _ _ _ (fun _ => rfl)

theorem sumPoints_tableUpdate_points (t : LeagueTable) (team : Team) (k : Nat)
    (hnd : (t.map Prod.fst).Nodup) (hmem : (lookupTable t team).isSome) :
    sumPoints (tableUpdate t team
      (fun r => { r with points := r.points + k })) = sumPoints t + k :=
  sumPoints_tableUpdate_add _ _ _ k (fun _ => rfl) hnd hmem

theorem sumPoints_update_league_table_core (t : LeagueTable) (h a : Team) (hs aws : Nat)
    (hh : (lookupTable t h).isSome) (ha : (lookupTable t a).isSome)
    (hnd : (t.map Prod.fst).Nodup) :
    sumPoints (update_league_table_core t h a hs aws) =
      sumPoints t + (if hs = aws then 2 else 3) := by
  unfold update_league_table_core
  by_cases h1 : hs > aws
  · simp only [if_pos h1]
    rw [sumPoints_tableUpdate_losses, sumPoints_tableUpdate_wins,
        sumPoints_tableUpdate_points _ _ 3
          (by simpa [tableUpdate_keys] using hnd)
          (by simpa [lookupTable_isSome_tableUpdate] using hh),
        sumPoints_tableUpdate_gs, sumPoints_tableUpdate_gs,
        sumPoints_tableUpdate_mp, sumPoints_tableUpdate_mp]
    have hne : hs ≠ aws := Nat.ne_of_gt h1
    simp [hne]
  · by_cases h2 : aws > hs
    · simp only [if_neg h1, if_pos h2]
      rw [sumPoints_tableUpdate_losses, sumPoints_tableUpdate_wins,
          sumPoints_tableUpdate_points _ _ 3
            (by simpa [tableUpdate_keys] using hnd)
            (by simpa [lookupTable_isSome_tableUpdate] using ha),
          sumPoints_tableUpdate_gs, sumPoints_tableUpdate_gs,
          sumPoints_tableUpdate_mp, sumPoints_tableUpdate_mp]
      have hne : hs ≠ aws := Nat.ne_of_lt h2
      simp [hne]
    · simp only [if_neg h1, if_neg h2]
      rw [sumPoints_tableUpdate_draws, sumPoints_tableUpdate_draws,
          sumPoints_tableUpdate_points _ _ 1
            (by simpa [tableUpdate_keys] using hnd)
            (by simpa [lookupTable_isSome_tableUpdate] using ha),
          sumPoints_tableUpdate_points _ _ 1
            (by simpa [tableUpdate_keys] using hnd)
            (by simpa [lookupTable_isSome_tableUpdate] using hh),
          sumPoints_tableUpdate_gs, sumPoints_tableUpdate_gs,
          sumPoints_tableUpdate_mp, sumPoints_tableUpdate_mp]
      have heq : hs = aws := by omega
      simp [heq]

theorem rowDelta_home (h a : Team) (hs aws : Nat) (r : StandingsRow) (hne : h ≠ a) :
    rowDelta h a hs aws h r =
      { r with
        matches_played := r.matches_played + 1
        goals_scored := r.goals_scored + hs
        points := r.points + (if hs > aws then 3 else if aws > hs then 0 else 1)
        wins := r.wins + (if hs > aws then 1 else 0)
        losses := r.losses + (if aws > hs then 1 else 0)
        draws := r.draws + (if hs = aws then 1 else 0) } := by
  rcases Nat.lt_trichotomy hs aws with hlt | heq | hgt
  · have h1 : ¬ hs > aws := by omega
    have h3 : ¬ hs = aws := by omega
    simp [rowDelta, hne, h1, hlt, h3]
  · have h1 : ¬ hs > aws := by omega
    have h2 : ¬ aws > hs := by omega
    simp [rowDelta, hne, h1, h2, heq]
  · have h2 : ¬ aws > hs := by omega
    have h3 : ¬ hs = aws := by omega
    simp [rowDelta, hne, hgt, h2, h3]

theorem rowDelta_away (h a : Team) (hs aws : Nat) (r : StandingsRow) (hne : h ≠ a) :
    rowDelta h a hs aws a r =
      { r with
        matches_played := r.matches_played + 1
        goals_scored := r.goals_scored + aws
        points := r.points + (if aws > hs then 3 else if hs > aws then 0 else 1)
        wins := r.wins + (if aws > hs then 1 else 0)
        losses := r.losses + (if hs > aws then 1 else 0)
        draws := r.draws + (if hs = aws then 1 else 0) } := by
  have hne' : a ≠ h := hne.symm
  rcases Nat.lt_trichotomy hs aws with hlt | heq | hgt
  · have h1 : ¬ hs > aws := by omega
    have h3 : ¬ hs = aws := by omega
    simp [rowDelta, hne', h1, hlt, h3]
  · have h1 : ¬ hs > aws := by omega
    have h2 : ¬ aws > hs := by omega
    simp [rowDelta, hne', h1, h2, heq]
  · have h2 : ¬ aws > hs := by omega
    have h3 : ¬ hs = aws := by omega
    simp [rowDelta, hne', hgt, h2, h3]

/-- C1: for a recorded match between two distinct teams both present in the
table, `update_league_table` increments `matches_played` by 1 for home and
away, adds `home_score` (resp. `away_score`) to `goals_scored`, and applies
the 3/1/0-point, win/loss/draw updates according to the score comparison. -/
theorem c1_update_league_table_per_match (t t2 : LeagueTable)
    (home_team away_team : Team) (home_score away_score : Nat)
    (rh ra : StandingsRow)
    (hne : home_team ≠ away_team)
    (hup : update_league_table t home_team away_team home_score away_score = some t2)
    (hh : lookupTable t home_team = some rh)
    (ha : lookupTable t away_team = some ra) :
    lookupTable t2 home_team = some
      { rh with
        matches_played := rh.matches_played + 1
        goals_scored := rh.goals_scored + home_score
        points := rh.points +
          (if home_score > away_score then 3 else if away_score > home_score then 0 else 1)
        wins := rh.wins + (if home_score > away_score then 1 else 0)
        losses := rh.losses + (if away_score > home_score then 1 else 0)
        draws := rh.draws + (if home_score = away_score then 1 else 0) } ∧
    lookupTable t2 away_team = some
      { ra with
        matches_played := ra.matches_played + 1
        goals_scored := ra.goals_scored + away_score
        points := ra.points +
          (if away_score > home_score then 3 else if home_score > away_score then 0 else 1)
        wins := ra.wins + (if away_score > home_score then 1 else 0)
        losses := ra.losses + (if home_score > away_score then 1 else 0)
        draws := ra.draws + (if home_score = away_score then 1 else 0) } := by
  unfold update_league_table at hup
  rw [if_pos (by simp [hh, ha])] at hup
  cases hup
  refine ⟨?_, ?_⟩
  · rw [lookupTable_update, hh]
    have hd := rowDelta_home home_team away_team home_score away_score rh hne
    simp [hd]
  · rw [lookupTable_update, ha]
    have hd := rowDelta_away home_team away_team home_score away_score ra hne
    simp [hd]

/-- The league table after recording Team A 2 - 1 Team B from the zeroed
default table; used as a concrete input by the witnesses below. -/
def tableAfterAB21 : LeagueTable :=
  [("Team A", { matches_played := 1, points := 3, goals_scored := 2
                wins := 1, losses := 0, draws := 0 }),
   ("Team B", { matches_played := 1, points := 0, goals_scored := 1
                wins := 0, losses := 1, draws := 0 }),
   ("Team C", zeroRow), ("Team D", zeroRow)]

theorem c1_update_league_table_per_match_witness :
    ("Team A" : Team) ≠ "Team B" ∧
    update_league_table get_default_league_table "Team A" "Team B" 2 1 =
      some tableAfterAB21 ∧
    lookupTable get_default_league_table "Team A" = some zeroRow ∧
    lookupTable get_default_league_table "Team B" = some zeroRow ∧
    (lookupTable tableAfterAB21 "Team A" =
        some { matches_played := 1, points := 3, goals_scored := 2
               wins := 1, losses := 0, draws := 0 } ∧
     lookupTable tableAfterAB21 "Team B" =
        some { matches_played := 1, points := 0, goals_scored := 1
               wins := 0, losses := 1, draws := 0 }) :=
  ⟨by decide, by decide, by decide, by decide,
   c1_update_league_table_per_match get_default_league_table tableAfterAB21
     "Team A" "Team B" 2 1 zeroRow zeroRow
     (by decide) (by decide) (by decide) (by decide)⟩

/-- The score data of one recorded match, as passed to
`update_league_table` by the Complete Match handler (line 275). -/
structure MatchScore where
  home_team : Team
  away_team : Team
  home_score : Nat
  away_score : Nat
deriving DecidableEq, Repr

/-- A sequence of matches recorded one after the other, each applied via
`update_league_table`. -/
def applyMatches : List MatchScore → LeagueTable → Option LeagueTable
  | [], t => some t
  | m :: ms, t =>
    match update_league_table t m.home_team m.away_team m.home_score m.away_score with
    | none => none
    | some t2 => applyMatches ms t2

theorem applyMatches_TableInv (ms : List MatchScore) :
    ∀ (t t2 : LeagueTable), applyMatches ms t = some t2 → TableInv t → TableInv t2 := by
  induction ms with
  | nil =>
    intro t t2 hap ht
    simp only [applyMatches] at hap
    cases hap
    exact ht
  | cons m ms ih =>
    intro t t2 hap ht
    cases hu : update_league_table t m.home_team m.away_team m.home_score m.away_score with
    | none => simp [applyMatches, hu] at hap
    | some t1 =>
      simp only [applyMatches, hu] at hap
      exact ih t1 t2 hap (TableInv_update t t1 _ _ _ _ hu ht)

theorem TableInv_default : TableInv get_default_league_table := by
  intro x r hr
  simp only [get_default_league_table, lookupTable] at hr
  split_ifs at hr <;> (cases hr; decide)

/-- C2: every row of the league table satisfies
`wins + losses + draws == matches_played` and `points == 3*wins + draws`
after any sequence of matches recorded via `update_league_table` starting
from the zeroed default table. -/
theorem c2_table_invariant (ms : List MatchScore) (t2 : LeagueTable)
    (hap : applyMatches ms get_default_league_table = some t2) :
    ∀ x r, lookupTable t2 x = some r → Inv r :=
  applyMatches_TableInv ms get_default_league_table t2 hap TableInv_default

theorem c2_table_invariant_witness :
    applyMatches [{ home_team := "Team A", away_team := "Team B"
                    home_score := 2, away_score := 1 }]
      get_default_league_table = some tableAfterAB21 ∧
    lookupTable tableAfterAB21 "Team A" =
      some { matches_played := 1, points := 3, goals_scored := 2
             wins := 1, losses := 0, draws := 0 } ∧
    Inv { matches_played := 1, points := 3, goals_scored := 2
          wins := 1, losses := 0, draws := 0 } :=
  ⟨by decide, by decide,
   c2_table_invariant
     [{ home_team := "Team A", away_team := "Team B", home_score := 2, away_score := 1 }]
     tableAfterAB21 (by decide) "Team A" _ (by decide)⟩

/-- Number of decisive (non-drawn) matches of a recorded sequence. -/
def countDecisive (ms : List MatchScore) : Nat :=
  (ms.filter (fun m => m.home_score != m.away_score)).length

/-- Number of drawn matches of a recorded sequence. -/
def countDrawn (ms : List MatchScore) : Nat :=
  (ms.filter (fun m => m.home_score == m.away_score)).length

theorem applyMatches_sumPoints (ms : List MatchScore) :
    ∀ (t t2 : LeagueTable), (t.map Prod.fst).Nodup → applyMatches ms t = some t2 →
      sumPoints t2 = sumPoints t + 3 * countDecisive ms + 2 * countDrawn ms := by
  induction ms with
  | nil =>
    intro t t2 hnd hap
    simp only [applyMatches] at hap
    cases hap
    simp [countDecisive, countDrawn]
  | cons m ms ih =>
    intro t t2 hnd hap
    cases hu : update_league_table t m.home_team m.away_team m.home_score m.away_score with
    | none => simp [applyMatches, hu] at hap
    | some t1 =>
      simp only [applyMatches, hu] at hap
      unfold update_league_table at hu
      split at hu
      case isTrue hg =>
        simp only [Bool.and_eq_true] at hg
        cases hu
        have hnd1 : ((update_league_table_core t m.home_team m.away_team
            m.home_score m.away_score).map Prod.fst).Nodup := by
          rw [update_league_table_core_keys]; exact hnd
        have hrec := ih _ t2 hnd1 hap
        rw [hrec, sumPoints_update_league_table_core t _ _ _ _ hg.1 hg.2 hnd]
        by_cases hd : m.home_score = m.away_score <;>
          simp [countDecisive, countDrawn, hd] <;> omega
      case isFalse hg => cases hu

/-- C3: after any sequence of matches recorded via `update_league_table`
from the zeroed default table, the total points across all teams equal
three times the decisive matches plus twice the drawn matches. -/
theorem c3_total_points (ms : List MatchScore) (t2 : LeagueTable)
    (hap : applyMatches ms get_default_league_table = some t2) :
    sumPoints t2 = 3 * countDecisive ms + 2 * countDrawn ms := by
  have hnd : (get_default_league_table.map Prod.fst).Nodup := by decide
  have h := applyMatches_sumPoints ms get_default_league_table t2 hnd hap
  have h0 : sumPoints get_default_league_table = 0 := rfl
  omega

theorem c3_total_points_witness :
    applyMatches
      [{ home_team := "Team A", away_team := "Team B", home_score := 2, away_score := 1 },
       { home_team := "Team C", away_team := "Team D", home_score := 1, away_score := 1 }]
      get_default_league_table =
      some [("Team A", { matches_played := 1, points := 3, goals_scored := 2
                         wins := 1, losses := 0, draws := 0 }),
            ("Team B", { matches_played := 1, points := 0, goals_scored := 1
                         wins := 0, losses := 1, draws := 0 }),
            ("Team C", { matches_played := 1, points := 1, goals_scored := 1
                         wins := 0, losses := 0, draws := 1 }),
            ("Team D", { matches_played := 1, points := 1, goals_scored := 1
                         wins := 0, losses := 0, draws := 1 })] ∧
    sumPoints [("Team A", { matches_played := 1, points := 3, goals_scored := 2
                            wins := 1, losses := 0, draws := 0 }),
               ("Team B", { matches_played := 1, points := 0, goals_scored := 1
                            wins := 0, losses := 1, draws := 0 }),
               ("Team C", { matches_played := 1, points := 1, goals_scored := 1
                            wins := 0, losses := 0, draws := 1 }),
               ("Team D", { matches_played := 1, points := 1, goals_scored := 1
                            wins := 0, losses := 0, draws := 1 })] = 3 * 1 + 2 * 1 :=
  ⟨by decide,
   c3_total_points
     [{ home_team := "Team A", away_team := "Team B", home_score := 2, away_score := 1 },
      { home_team := "Team C", away_team := "Team D", home_score := 1, away_score := 1 }]
     [("Team A", { matches_played := 1, points := 3, goals_scored := 2
                   wins := 1, losses := 0, draws := 0 }),
      ("Team B", { matches_played := 1, points := 0, goals_scored := 1
                   wins := 0, losses := 1, draws := 0 }),
      ("Team C", { matches_played := 1, points := 1, goals_scored := 1
                   wins := 0, losses := 0, draws := 1 }),
      ("Team D", { matches_played := 1, points := 1, goals_scored := 1
                   wins := 0, losses := 0, draws := 1 })]
     (by decide)⟩

/-- One entry of `player_stats` (lines 80, 174, 437):
`{'goals': g, 'assists': a, 'team': team}`. -/
structure PlayerStat where
  goals : Nat
  assists : Nat
  team : Team
deriving DecidableEq, Repr

abbrev PlayerStats := List (Player × PlayerStat)

/-- One entry of the `scorers_data` / `assists_data` lists built by the UI
(lines 251, 259): `{'player': player, 'team': team}`; `player` may be the
sentinel string 'None'. -/
structure ScorerEntry where
  player : Player
  team : Team
deriving DecidableEq, Repr

def lookupStats : PlayerStats → Player → Option PlayerStat
  | [], _ => none
  | e :: t, x => if e.1 = x then some e.2 else lookupStats t x

/-- In-place mutation `player_stats[p][field] += 1` of an existing key. -/
def statsUpdate (ps : PlayerStats) (player : Player) (f : PlayerStat → PlayerStat) :
    PlayerStats :=
  ps.map (fun e => if e.1 = player then (e.1, f e.2) else e)

/-- The first loop of `update_player_stats` (lines 154-156): every scorer
entry whose player is not 'None' increments that player's goals. -/
def applyScorers : List ScorerEntry → PlayerStats → PlayerStats
  | [], ps => ps
  | e :: l, ps =>
    if e.player != "None" then
      applyScorers l (statsUpdate ps e.player (fun s => { s with goals := s.goals + 1 }))
    else
      applyScorers l ps

/-- The second loop of `update_player_stats` (lines 158-160). -/
def applyAssists : List ScorerEntry → PlayerStats → PlayerStats
  | [], ps => ps
  | e :: l, ps =>
    if e.player != "None" then
      applyAssists l (statsUpdate ps e.player (fun s => { s with assists := s.assists + 1 }))
    else
      applyAssists l ps

/-- Every non-sentinel entry names a player present in the stats dict;
a missing key would raise `KeyError` in the Python loops.  `statsUpdate`
never adds or removes keys, so checking on the initial dict is equivalent
to Python's check at each iteration. -/
def scorersValid (ps : PlayerStats) (l : List ScorerEntry) : Bool :=
  l.all (fun e => e.player == "None" || (lookupStats ps e.player).isSome)

/-- `update_player_stats` (lines 153-160): the two loops in order; `none`
models the `KeyError` raised on a scorer or assist naming an unknown
player. -/
def update_player_stats (ps : PlayerStats)
    (scorers_data assists_data : List ScorerEntry) : Option PlayerStats :=
  if scorersValid ps scorers_data && scorersValid ps assists_data then
    some (applyAssists assists_data (applyScorers scorers_data ps))
  else
    none

/-- Number of entries of a scorer/assist list naming player `p`. -/
def countEntries (l : List ScorerEntry) (p : Player) : Nat :=
  (l.filter (fun e => e.player == p)).length

theorem lookupStats_statsUpdate (ps : PlayerStats) (q : Player)
    (f : PlayerStat → PlayerStat) (p : Player) :
    lookupStats (statsUpdate ps q f) p =
      if p = q then (lookupStats ps p).map f else lookupStats ps p := by
  induction ps with
  | nil => by_cases hp : p = q <;> simp [lookupStats, statsUpdate, hp]
  | cons e t ih =>
    rcases e with ⟨y, r⟩
    by_cases hyq : y = q <;> by_cases hyp : y = p <;> by_cases hpq : p = q <;>
      simp_all [lookupStats, statsUpdate]

theorem lookupStats_applyScorers (l : List ScorerEntry) :
    ∀ (ps : PlayerStats) (p : Player), p ≠ "None" →
      lookupStats (applyScorers l ps) p =
        (lookupStats ps p).map (fun s => { s with goals := s.goals + countEntries l p }) := by
  induction l with
  | nil =>
    intro ps p _
    cases h : lookupStats ps p <;> simp [applyScorers, countEntries, h]
  | cons e l ih =>
    intro ps p hp
    by_cases he : e.player = "None"
    · have hcond : (e.player != "None") = false := by simp [he]
      have hep : (e.player == p) = false := by
        simp only [he, beq_eq_false_iff_ne]
        exact Ne.symm hp
      rw [show applyScorers (e :: l) ps = applyScorers l ps by
            simp [applyScorers, hcond],
          ih ps p hp,
          show countEntries (e :: l) p = countEntries l p by
            simp [countEntries, hep]]
    · have hcond : (e.player != "None") = true := by
        simp only [bne_iff_ne, ne_eq]
        exact he
      rw [show applyScorers (e :: l) ps =
            applyScorers l (statsUpdate ps e.player
              (fun s => { s with goals := s.goals + 1 })) by
            simp [applyScorers, hcond],
          ih _ p hp, lookupStats_statsUpdate]
      by_cases hpe : p = e.player
      · have hbp : (e.player == p) = true := by
          simp only [beq_iff_eq]
          exact hpe.symm
        rw [if_pos hpe,
            show countEntries (e :: l) p = countEntries l p + 1 by
              simp [countEntries, hbp]]
        cases hv : lookupStats ps p <;> simp
        omega
      · have hbp : (e.player == p) = false := by
          simp only [beq_eq_false_iff_ne]
          exact fun hh => hpe hh.symm
        rw [if_neg hpe,
            show countEntries (e :: l) p = countEntries l p by
              simp [countEntries, hbp]]

theorem lookupStats_applyAssists (l : List ScorerEntry) :
    ∀ (ps : PlayerStats) (p : Player), p ≠ "None" →
      lookupStats (applyAssists l ps) p =
        (lookupStats ps p).map (fun s => { s with assists := s.assists + countEntries l p }) := by
  induction l with
  | nil =>
    intro ps p _
    cases h : lookupStats ps p <;> simp [applyAssists, countEntries, h]
  | cons e l ih =>
    intro ps p hp
    by_cases he : e.player = "None"
    · have hcond : (e.player != "None") = false := by simp [he]
      have hep : (e.player == p) = false := by
        simp only [he, beq_eq_false_iff_ne]
        exact Ne.symm hp
      rw [show applyAssists (e :: l) ps = applyAssists l ps by
            simp [applyAssists, hcond],
          ih ps p hp,
          show countEntries (e :: l) p = countEntries l p by
            simp [countEntries, hep]]
    · have hcond : (e.player != "None") = true := by
        simp only [bne_iff_ne, ne_eq]
        exact he
      rw [show applyAssists (e :: l) ps =
            applyAssists l (statsUpdate ps e.player
              (fun s => { s with assists := s.assists + 1 })) by
            simp [applyAssists, hcond],
          ih _ p hp, lookupStats_statsUpdate]
      by_cases hpe : p = e.player
      · have hbp : (e.player == p) = true := by
          simp only [beq_iff_eq]
          exact hpe.symm
        rw [if_pos hpe,
            show countEntries (e :: l) p = countEntries l p + 1 by
              simp [countEntries, hbp]]
        cases hv : lookupStats ps p <;> simp
        omega
      · have hbp : (e.player == p) = false := by
          simp only [beq_eq_false_iff_ne]
          exact fun hh => hpe hh.symm
        rw [if_neg hpe,
            show countEntries (e :: l) p = countEntries l p by
              simp [countEntries, hbp]]

theorem lookupStats_applyScorers_sentinel (l : List ScorerEntry) :
    ∀ ps : PlayerStats, lookupStats (applyScorers l ps) "None" = lookupStats ps "None" := by
  induction l with
  | nil => intro ps; rfl
  | cons e l ih =>
    intro ps
    by_cases he : e.player = "None"
    · have hcond : (e.player != "None") = false := by simp [he]
      rw [show applyScorers (e :: l) ps = applyScorers l ps by
            simp [applyScorers, hcond], ih]
    · have hcond : (e.player != "None") = true := by
        simp only [bne_iff_ne, ne_eq]
        exact he
      rw [show applyScorers (e :: l) ps =
            applyScorers l (statsUpdate ps e.player
              (fun s => { s with goals := s.goals + 1 })) by
            simp [applyScorers, hcond],
          ih, lookupStats_statsUpdate,
          if_neg (fun hh => he hh.symm)]

theorem lookupStats_applyAssists_sentinel (l : List ScorerEntry) :
    ∀ ps : PlayerStats, lookupStats (applyAssists l ps) "None" = lookupStats ps "None" := by
  induction l with
  | nil => intro ps; rfl
  | cons e l ih =>
    intro ps
    by_cases he : e.player = "None"
    · have hcond : (e.player != "None") = false := by simp [he]
      rw [show applyAssists (e :: l) ps = applyAssists l ps by
            simp [applyAssists, hcond], ih]
    · have hcond : (e.player != "None") = true := by
        simp only [bne_iff_ne, ne_eq]
        exact he
      rw [show applyAssists (e :: l) ps =
            applyAssists l (statsUpdate ps e.player
              (fun s => { s with assists := s.assists + 1 })) by
            simp [applyAssists, hcond],
          ih, lookupStats_statsUpdate,
          if_neg (fun hh => he hh.symm)]

/-- C5: when `update_player_stats` succeeds, every player other than the
'None' sentinel gains exactly one goal per scorer entry naming them and one
assist per assist entry naming them (entries accumulate independently), and
an entry stored under the sentinel key itself is never touched; sentinel
entries are skipped, so they change no player's stats. -/
theorem c5_update_player_stats_per_entry (ps ps2 : PlayerStats)
    (scorers_data assists_data : List ScorerEntry)
    (hup : update_player_stats ps scorers_data assists_data = some ps2) :
    (∀ p s, p ≠ "None" → lookupStats ps p = some s →
       lookupStats ps2 p =
         some { s with goals := s.goals + countEntries scorers_data p
                       assists := s.assists + countEntries assists_data p }) ∧
    lookupStats ps2 "None" = lookupStats ps "None" := by
  unfold update_player_stats at hup
  split at hup
  case isTrue =>
    cases hup
    constructor
    · intro p s hp hs
      rw [lookupStats_applyAssists _ _ _ hp, lookupStats_applyScorers _ _ _ hp, hs]
      rfl
    · rw [lookupStats_applyAssists_sentinel, lookupStats_applyScorers_sentinel]
  case isFalse => cases hup

/-- Pre-match player stats of the spec scenario in section 8: three players
with zeroed stats. -/
def examplePlayerStats : PlayerStats :=
  [("Player A1", { goals := 0, assists := 0, team := "Team A" }),
   ("Player A2", { goals := 0, assists := 0, team := "Team A" }),
   ("Player B1", { goals := 0, assists := 0, team := "Team B" })]

def exampleScorers : List ScorerEntry :=
  [{ player := "Player A1", team := "Team A" },
   { player := "Player A1", team := "Team A" },
   { player := "Player B1", team := "Team B" }]

def exampleAssists : List ScorerEntry :=
  [{ player := "None", team := "Team A" },
   { player := "Player A2", team := "Team A" },
   { player := "None", team := "Team B" }]

def examplePlayerStats2 : PlayerStats :=
  [("Player A1", { goals := 2, assists := 0, team := "Team A" }),
   ("Player A2", { goals := 0, assists := 1, team := "Team A" }),
   ("Player B1", { goals := 1, assists := 0, team := "Team B" })]

theorem c5_update_player_stats_per_entry_witness :
    update_player_stats examplePlayerStats exampleScorers exampleAssists =
      some examplePlayerStats2 ∧
    ("Player A1" : Player) ≠ "None" ∧
    lookupStats examplePlayerStats "Player A1" =
      some { goals := 0, assists := 0, team := "Team A" } ∧
    lookupStats examplePlayerStats2 "Player A1" =
      some { goals := 2, assists := 0, team := "Team A" } ∧
    lookupStats examplePlayerStats2 "None" = lookupStats examplePlayerStats "None" :=
  ⟨by decide, by decide, by decide,
   (c5_update_player_stats_per_entry examplePlayerStats examplePlayerStats2
      exampleScorers exampleAssists (by decide)).1 "Player A1"
      { goals := 0, assists := 0, team := "Team A" } (by decide) (by decide),
   (c5_update_player_stats_per_entry examplePlayerStats examplePlayerStats2
      exampleScorers exampleAssists (by decide)).2⟩

/-- One match record as built by the Complete Match handler (lines 263-272). -/
structure MatchRecord where
  date : String
  home_team : Team
  away_team : Team
  home_score : Nat
  away_score : Nat
  scorers : List ScorerEntry
  assists : List ScorerEntry
  completed : Bool
deriving DecidableEq, Repr

abbrev Teams := List (Team × List Player)

/-- The four session-state fields that make up the whole league state. -/
structure LeagueState where
  teams : Teams
  «matches» : List MatchRecord
  league_table : LeagueTable
  player_stats : PlayerStats
deriving DecidableEq, Repr

def lookupRoster : Teams → Team → Option (List Player)
  | [], _ => none
  | e :: t, x => if e.1 = x then some e.2 else lookupRoster t x

/-- Inner loop of `initialize_missing_player_stats` (lines 78-80): each
player of a roster missing from the stats dict is assigned a zeroed entry
(dict assignment to a fresh key appends). -/
def addMissingPlayers (tm : Team) : List Player → PlayerStats → PlayerStats
  | [], ps => ps
  | p :: rest, ps =>
    if (lookupStats ps p).isSome then addMissingPlayers tm rest ps
    else addMissingPlayers tm rest (ps ++ [(p, { goals := 0, assists := 0, team := tm })])

/-- `initialize_missing_player_stats` (lines 75-80): iterate the team dict
in order, filling in missing players. -/
def initialize_missing_player_stats : Teams → PlayerStats → PlayerStats
  | [], ps => ps
  | e :: ts, ps => initialize_missing_player_stats ts (addMissingPlayers e.1 e.2 ps)

/-- The state built by `initialize_session_state` (lines 108-124) when no
saved file exists: default teams, no matches, zeroed table, and player
stats synthesized for every rostered player. -/
def initial_state : LeagueState :=
  { teams := get_default_teams
    «matches» := []
    league_table := get_default_league_table
    player_stats := initialize_missing_player_stats get_default_teams [] }

/-- The Complete Match commit block (lines 261-284): build the match
record, update the league table, update player statistics, append the
match to history.  There is no validation of the scorer list against the
scores; `none` only models a `KeyError` from an unknown team or player. -/
def record_match (s : LeagueState) (date : String) (home_team away_team : Team)
    (home_score away_score : Nat)
    (scorers_data assists_data : List ScorerEntry) : Option LeagueState :=
  match update_league_table s.league_table home_team away_team home_score away_score with
  | none => none
  | some table2 =>
    match update_player_stats s.player_stats scorers_data assists_data with
    | none => none
    | some stats2 =>
      some { s with
             league_table := table2
             player_stats := stats2
             «matches» := s.«matches» ++
               [{ date := date, home_team := home_team, away_team := away_team
                  home_score := home_score, away_score := away_score
                  scorers := scorers_data, assists := assists_data, completed := true }] }

/-- The scorer-selection loop of the UI (lines 229-251): exactly
`total_goals = home_score + away_score` entries are built, goal `i`
attributed to the home team when `i < home_score` and to the away team
otherwise; the selected player is arbitrary (`pick`). -/
def build_scorers_data (home_team away_team : Team) (home_score away_score : Nat)
    (pick : Nat → Player) : List ScorerEntry :=
  (List.range (home_score + away_score)).map
    (fun i => { player := pick i
                team := if i < home_score then home_team else away_team })

/-- C4 (counterexample): the commit block performs no scorer-count
validation: a proposed match with 1+0 goals and an empty scorer list is
accepted (no rejection) and the league state changes. -/
theorem c4_no_scorer_count_validation :
    ([] : List ScorerEntry).length ≠ 1 + 0 ∧
    record_match initial_state "2024-01-01" "Team A" "Team B" 1 0 [] [] ≠ none ∧
    record_match initial_state "2024-01-01" "Team A" "Team B" 1 0 [] [] ≠
      some initial_state := by
  decide

/-- C4 (amended): the UI constructs the scorers list with exactly
`home_score + away_score` entries, so every match record appended by the
Complete Match flow satisfies `scorers.length = home_score + away_score`
even though the commit itself never validates or rejects. -/
theorem c4_ui_built_scorers_length (s s2 : LeagueState) (date : String)
    (home_team away_team : Team) (home_score away_score : Nat)
    (pickScorer pickAssist : Nat → Player)
    (hrm : record_match s date home_team away_team home_score away_score
             (build_scorers_data home_team away_team home_score away_score pickScorer)
             (build_scorers_data home_team away_team home_score away_score pickAssist) =
           some s2) :
    ∀ m ∈ s2.«matches», m ∈ s.«matches» ∨ m.scorers.length = m.home_score + m.away_score := by
  unfold record_match at hrm
  split at hrm
  · cases hrm
  · split at hrm
    · cases hrm
    · cases hrm
      intro m hm
      simp only [List.mem_append, List.mem_singleton] at hm
      cases hm with
      | inl h => exact Or.inl h
      | inr h =>
        subst h
        simp [build_scorers_data]

def c4ExampleCall : Option LeagueState :=
  record_match initial_state "2024-01-01" "Team A" "Team B" 1 0
    (build_scorers_data "Team A" "Team B" 1 0 (fun _ => "Player A1"))
    (build_scorers_data "Team A" "Team B" 1 0 (fun _ => "None"))

theorem c4_ui_built_scorers_length_witness :
    c4ExampleCall = some (c4ExampleCall.getD initial_state) ∧
    (∀ m ∈ (c4ExampleCall.getD initial_state).«matches»,
       m ∈ initial_state.«matches» ∨ m.scorers.length = m.home_score + m.away_score) :=
  ⟨by decide,
   c4_ui_built_scorers_length initial_state (c4ExampleCall.getD initial_state)
     "2024-01-01" "Team A" "Team B" 1 0 (fun _ => "Player A1") (fun _ => "None")
     (by decide)⟩

/-- `update_league_table` touches only the `league_table` session-state
field; the other three fields are not mentioned by the function
(lines 126-151). -/
def update_league_table_state (s : LeagueState) (home_team away_team : Team)
    (home_score away_score : Nat) : Option LeagueState :=
  match update_league_table s.league_table home_team away_team home_score away_score with
  | none => none
  | some t2 => some { s with league_table := t2 }

/-- C10: a successful `update_league_table` call modifies only the rows of
the two named teams: every other team's row, and the `teams`, `matches`
and `player_stats` fields, are unchanged. -/
theorem c10_update_league_table_frame (s s2 : LeagueState)
    (home_team away_team : Team) (home_score away_score : Nat)
    (hup : update_league_table_state s home_team away_team home_score away_score =
           some s2) :
    (∀ x, x ≠ home_team → x ≠ away_team →
       lookupTable s2.league_table x = lookupTable s.league_table x) ∧
    s2.teams = s.teams ∧ s2.«matches» = s.«matches» ∧ s2.player_stats = s.player_stats := by
  cases hu : update_league_table s.league_table home_team away_team home_score away_score with
  | none => simp [update_league_table_state, hu] at hup
  | some t2 =>
    simp only [update_league_table_state, hu] at hup
    cases hup
    refine ⟨?_, rfl, rfl, rfl⟩
    intro x hxh hxa
    unfold update_league_table at hu
    split at hu
    case isTrue =>
      cases hu
      rw [lookupTable_update]
      cases hl : lookupTable s.league_table x <;>
        simp [rowDelta_other _ _ _ _ _ _ hxh hxa]
    case isFalse => cases hu

theorem c10_update_league_table_frame_witness :
    update_league_table_state initial_state "Team A" "Team B" 2 1 =
      some { initial_state with league_table := tableAfterAB21 } ∧
    ((∀ x, x ≠ "Team A" → x ≠ "Team B" →
        lookupTable ({ initial_state with league_table := tableAfterAB21 } :
            LeagueState).league_table x =
          lookupTable initial_state.league_table x) ∧
     ({ initial_state with league_table := tableAfterAB21 } : LeagueState).teams =
        initial_state.teams ∧
     ({ initial_state with league_table := tableAfterAB21 } : LeagueState).«matches» =
        initial_state.«matches» ∧
     ({ initial_state with league_table := tableAfterAB21 } : LeagueState).player_stats =
        initial_state.player_stats) :=
  ⟨by decide,
   c10_update_league_table_frame initial_state
     { initial_state with league_table := tableAfterAB21 }
     "Team A" "Team B" 2 1 (by decide)⟩

/-- The JSON object written by `save_data` (lines 15-33): the four state
fields plus a `last_updated` timestamp (for `backup_data` the same shape
carries `backup_created`). -/
structure SavedData where
  «matches» : List MatchRecord
  league_table : LeagueTable
  player_stats : PlayerStats
  teams : Teams
  last_updated : String
deriving DecidableEq, Repr

def save_data (s : LeagueState) (now : String) : SavedData :=
  { «matches» := s.«matches»
    league_table := s.league_table
    player_stats := s.player_stats
    teams := s.teams
    last_updated := now }

/-- A parsed JSON object that may be missing any of the four state fields;
`data.get(field, default)` in `load_data` (lines 44-47) supplies the
default per missing field. -/
structure FileData where
  «matches» : Option (List MatchRecord)
  league_table : Option LeagueTable
  player_stats : Option PlayerStats
  teams : Option Teams
deriving DecidableEq, Repr

/-- A file just written by `save_data` parses back with all four fields
present. -/
def fileOfSaved (d : SavedData) : FileData :=
  { «matches» := some d.«matches»
    league_table := some d.league_table
    player_stats := some d.player_stats
    teams := some d.teams }

/-- `load_data` (lines 35-55): each field independently falls back to its
default, then `initialize_missing_player_stats` repairs the stats dict. -/
def load_data (d : FileData) : LeagueState :=
  let ms := d.«matches».getD []
  let table := d.league_table.getD get_default_league_table
  let stats := d.player_stats.getD []
  let teams := d.teams.getD get_default_teams
  { teams := teams
    «matches» := ms
    league_table := table
    player_stats := initialize_missing_player_stats teams stats }

/-- Every rostered player has an entry in `player_stats`.  Every reachable
state satisfies this: the initial state synthesizes all entries, adding a
player creates its entry, removing a player deletes roster entry and stats
together, and neither recording a match nor clearing data drops a rostered
player's entry. -/
def statsComplete (s : LeagueState) : Prop :=
  ∀ e ∈ s.teams, ∀ p ∈ e.2, (lookupStats s.player_stats p).isSome

instance (s : LeagueState) : Decidable (statsComplete s) := by
  unfold statsComplete
  infer_instance

theorem addMissingPlayers_noop (tm : Team) (players : List Player) :
    ∀ ps : PlayerStats, (∀ p ∈ players, (lookupStats ps p).isSome) →
      addMissingPlayers tm players ps = ps := by
  induction players with
  | nil => intro ps _; rfl
  | cons q rest ih =>
    intro ps hall
    have hq : (lookupStats ps q).isSome := hall q (by simp)
    rw [show addMissingPlayers tm (q :: rest) ps = addMissingPlayers tm rest ps by
          simp [addMissingPlayers, hq]]
    exact ih ps (fun p hp => hall p (by simp [hp]))

theorem initialize_missing_player_stats_noop (ts : Teams) :
    ∀ ps : PlayerStats, (∀ e ∈ ts, ∀ p ∈ e.2, (lookupStats ps p).isSome) →
      initialize_missing_player_stats ts ps = ps := by
  induction ts with
  | nil => intro ps _; rfl
  | cons e ts ih =>
    intro ps hall
    rw [show initialize_missing_player_stats (e :: ts) ps =
          initialize_missing_player_stats ts (addMissingPlayers e.1 e.2 ps) from rfl,
        addMissingPlayers_noop e.1 e.2 ps (hall e (by simp))]
    exact ih ps (fun e2 he2 p hp => hall e2 (by simp [he2]) p hp)

/-- C6: saving the whole state and loading it back restores all four
fields, for any state in which every rostered player has a stats entry
(true of every reachable state, see `statsComplete`). -/
theorem c6_save_load_round_trip (s : LeagueState) (now : String)
    (hc : statsComplete s) :
    load_data (fileOfSaved (save_data s now)) = s := by
  unfold load_data fileOfSaved save_data
  simp only [Option.getD_some]
  rw [initialize_missing_player_stats_noop s.teams s.player_stats hc]

theorem c6_save_load_round_trip_witness :
    statsComplete initial_state ∧
    load_data (fileOfSaved (save_data initial_state "2024-01-01T00:00:00")) =
      initial_state :=
  ⟨by decide, c6_save_load_round_trip initial_state "2024-01-01T00:00:00" (by decide)⟩

theorem lookupStats_append_of_some (ps : PlayerStats) (l : PlayerStats)
    (p : Player) (st : PlayerStat) (h : lookupStats ps p = some st) :
    lookupStats (ps ++ l) p = some st := by
  induction ps with
  | nil => cases h
  | cons e t ih =>
    by_cases he : e.1 = p
    · simp [lookupStats, he] at h ⊢
      exact h
    · simp only [lookupStats, he, if_false, if_neg] at h ⊢
      exact ih h

theorem lookupStats_append_of_none (ps : PlayerStats) (l : PlayerStats)
    (p : Player) (h : lookupStats ps p = none) :
    lookupStats (ps ++ l) p = lookupStats l p := by
  induction ps with
  | nil => rfl
  | cons e t ih =>
    by_cases he : e.1 = p
    · simp [lookupStats, he] at h
    · simp only [lookupStats, he, if_false, if_neg] at h ⊢
      exact ih h

theorem addMissingPlayers_preserve (tm : Team) (players : List Player) :
    ∀ (ps : PlayerStats) (p : Player) (st : PlayerStat),
      lookupStats ps p = some st →
      lookupStats (addMissingPlayers tm players ps) p = some st := by
  induction players with
  | nil => intro ps p st h; exact h
  | cons q rest ih =>
    intro ps p st h
    by_cases hq : (lookupStats ps q).isSome
    · rw [show addMissingPlayers tm (q :: rest) ps = addMissingPlayers tm rest ps by
            simp [addMissingPlayers, hq]]
      exact ih ps p st h
    · rw [show addMissingPlayers tm (q :: rest) ps =
            addMissingPlayers tm rest
              (ps ++ [(q, { goals := 0, assists := 0, team := tm })]) by
            simp [addMissingPlayers, hq]]
      exact ih _ p st (lookupStats_append_of_some ps _ p st h)

theorem initialize_missing_player_stats_preserve (ts : Teams) :
    ∀ (ps : PlayerStats) (p : Player) (st : PlayerStat),
      lookupStats ps p = some st →
      lookupStats (initialize_missing_player_stats ts ps) p = some st := by
  induction ts with
  | nil => intro ps p st h; exact h
  | cons e ts ih =>
    intro ps p st h
    exact ih _ p st (addMissingPlayers_preserve e.1 e.2 ps p st h)

theorem addMissingPlayers_not_mem (tm : Team) (players : List Player) :
    ∀ (ps : PlayerStats) (p : Player), p ∉ players →
      lookupStats (addMissingPlayers tm players ps) p = lookupStats ps p := by
  induction players with
  | nil => intro ps p _; rfl
  | cons q rest ih =>
    intro ps p hp
    simp only [List.mem_cons, not_or] at hp
    by_cases hq : (lookupStats ps q).isSome
    · rw [show addMissingPlayers tm (q :: rest) ps = addMissingPlayers tm rest ps by
            simp [addMissingPlayers, hq]]
      exact ih ps p hp.2
    · rw [show addMissingPlayers tm (q :: rest) ps =
            addMissingPlayers tm rest
              (ps ++ [(q, { goals := 0, assists := 0, team := tm })]) by
            simp [addMissingPlayers, hq],
          ih _ p hp.2]
      cases hl : lookupStats ps p with
      | some st => exact lookupStats_append_of_some ps _ p st hl
      | none =>
        rw [lookupStats_append_of_none ps _ p hl]
        have hqp : ¬ q = p := fun hh => hp.1 hh.symm
        simp [lookupStats, hqp]

theorem addMissingPlayers_establish (tm : Team) (players : List Player) :
    ∀ (ps : PlayerStats) (p : Player), p ∈ players → lookupStats ps p = none →
      lookupStats (addMissingPlayers tm players ps) p =
        some { goals := 0, assists := 0, team := tm } := by
  induction players with
  | nil => intro ps p hp _; cases hp
  | cons q rest ih =>
    intro ps p hp hnone
    by_cases hqp : q = p
    · subst hqp
      have hq : ¬ (lookupStats ps q).isSome = true := by simp [hnone]
      rw [show addMissingPlayers tm (q :: rest) ps =
            addMissingPlayers tm rest
              (ps ++ [(q, { goals := 0, assists := 0, team := tm })]) by
            simp [addMissingPlayers, hq]]
      exact addMissingPlayers_preserve tm rest _ q _
        (by rw [lookupStats_append_of_none ps _ q hnone]; simp [lookupStats])
    · have hp2 : p ∈ rest := by
        cases hp with
        | head => exact absurd rfl hqp
        | tail _ h => exact h
      by_cases hq : (lookupStats ps q).isSome
      · rw [show addMissingPlayers tm (q :: rest) ps = addMissingPlayers tm rest ps by
              simp [addMissingPlayers, hq]]
        exact ih ps p hp2 hnone
      · rw [show addMissingPlayers tm (q :: rest) ps =
              addMissingPlayers tm rest
                (ps ++ [(q, { goals := 0, assists := 0, team := tm })]) by
              simp [addMissingPlayers, hq]]
        refine ih _ p hp2 ?_
        rw [lookupStats_append_of_none ps _ p hnone]
        simp [lookupStats, fun hh : q = p => hqp hh]

theorem initialize_missing_player_stats_zero (ts : Teams) :
    ∀ (ps : PlayerStats) (p : Player), lookupStats ps p = none →
      ∀ e ∈ ts, p ∈ e.2 →
        (lookupStats (initialize_missing_player_stats ts ps) p).map PlayerStat.goals =
          some 0 ∧
        (lookupStats (initialize_missing_player_stats ts ps) p).map PlayerStat.assists =
          some 0 := by
  induction ts with
  | nil => intro ps p _ e he; cases he
  | cons e0 ts ih =>
    intro ps p hnone e he hpe
    by_cases hmem : p ∈ e0.2
    · have hadd := addMissingPlayers_establish e0.1 e0.2 ps p hmem hnone
      have hkeep := initialize_missing_player_stats_preserve ts _ p _ hadd
      rw [show initialize_missing_player_stats (e0 :: ts) ps =
            initialize_missing_player_stats ts (addMissingPlayers e0.1 e0.2 ps) from rfl,
          hkeep]
      exact ⟨rfl, rfl⟩
    · have he2 : e ∈ ts := by
        cases he with
        | head => exact absurd hpe hmem
        | tail _ h => exact h
      rw [show initialize_missing_player_stats (e0 :: ts) ps =
            initialize_missing_player_stats ts (addMissingPlayers e0.1 e0.2 ps) from rfl]
      exact ih _ p (by rw [addMissingPlayers_not_mem e0.1 e0.2 ps p hmem]; exact hnone)
        e he2 hpe

/-- C8 (counterexample): a file whose `player_stats` field is present is
not taken unchanged: the post-load repair synthesizes entries for rostered
players missing from it. -/
theorem c8_present_field_not_unchanged :
    ({ «matches» := some [], league_table := some get_default_league_table
       player_stats := some [], teams := some [("T", ["P"])] } : FileData).player_stats =
      some [] ∧
    (load_data { «matches» := some [], league_table := some get_default_league_table
                 player_stats := some [], teams := some [("T", ["P"])] }).player_stats ≠
      [] := by
  decide

/-- C8 (amended): each missing field independently falls back to its
default (`teams` to the default roster, `league_table` to the zeroed
default, `matches` to `[]`, `player_stats` to `{}`); present fields are
taken from the file, except that `player_stats` is then repaired: entries
present in the file are preserved unchanged, and every rostered player
missing from it is synthesized with zeroed stats. -/
theorem c8_load_data_defaults (d : FileData) :
    (load_data d).«matches» = d.«matches».getD [] ∧
    (load_data d).league_table = d.league_table.getD get_default_league_table ∧
    (load_data d).teams = d.teams.getD get_default_teams ∧
    (∀ p st, lookupStats (d.player_stats.getD []) p = some st →
       lookupStats (load_data d).player_stats p = some st) ∧
    (∀ e ∈ (load_data d).teams, ∀ p ∈ e.2,
       lookupStats (d.player_stats.getD []) p = none →
         (lookupStats (load_data d).player_stats p).map PlayerStat.goals = some 0 ∧
         (lookupStats (load_data d).player_stats p).map PlayerStat.assists = some 0) := by
  refine ⟨rfl, rfl, rfl, ?_, ?_⟩
  · intro p st h
    exact initialize_missing_player_stats_preserve _ _ p st h
  · intro e he p hpe hnone
    exact initialize_missing_player_stats_zero _ _ p hnone e he hpe

def c8ExampleFile : FileData :=
  { «matches» := none
    league_table := none
    player_stats := some [("X", { goals := 5, assists := 7, team := "T" })]
    teams := some [("T", ["X", "Y"])] }

theorem c8_load_data_defaults_witness :
    (load_data c8ExampleFile).«matches» = [] ∧
    (load_data c8ExampleFile).league_table = get_default_league_table ∧
    (load_data c8ExampleFile).teams = [("T", ["X", "Y"])] ∧
    lookupStats (load_data c8ExampleFile).player_stats "X" =
      some { goals := 5, assists := 7, team := "T" } ∧
    (lookupStats (load_data c8ExampleFile).player_stats "Y").map PlayerStat.goals =
      some 0 :=
  ⟨(c8_load_data_defaults c8ExampleFile).1,
   (c8_load_data_defaults c8ExampleFile).2.1,
   (c8_load_data_defaults c8ExampleFile).2.2.1,
   (c8_load_data_defaults c8ExampleFile).2.2.2.1 "X"
     { goals := 5, assists := 7, team := "T" } (by decide),
   ((c8_load_data_defaults c8ExampleFile).2.2.2.2 ("T", ["X", "Y"]) (by decide) "Y"
     (by decide) (by decide)).1⟩

/-- `teams[team_name].append(new_player)` (line 436). -/
def rosterAppend (ts : Teams) (team : Team) (p : Player) : Teams :=
  ts.map (fun e => if e.1 = team then (e.1, e.2 ++ [p]) else e)

/-- Python dict assignment `player_stats[p] = v`: replaces the value in
place when the key exists, appends a new entry otherwise. -/
def statsAssign (ps : PlayerStats) (p : Player) (v : PlayerStat) : PlayerStats :=
  if (lookupStats ps p).isSome then
    ps.map (fun e => if e.1 = p then (e.1, v) else e)
  else
    ps ++ [(p, v)]

/-- The Add Player handler (lines 433-442).  The duplicate check is
`new_player not in st.session_state.teams[team_name]` — only the target
team's roster is consulted.  On success the roster gains the player and
`player_stats[new_player]` is assigned a zeroed entry (overwriting any
entry a same-named player on another team already had).  The UI only
fires the handler with a non-empty name; the body itself does not
re-check that. -/
def add_player (s : LeagueState) (team_name : Team) (new_player : Player) :
    Except String LeagueState :=
  match lookupRoster s.teams team_name with
  | none => Except.error "KeyError"
  | some roster =>
    if new_player ∈ roster then
      Except.error (new_player ++ " already exists in " ++ team_name)
    else
      Except.ok
        { s with
          teams := rosterAppend s.teams team_name new_player
          player_stats := statsAssign s.player_stats new_player
            { goals := 0, assists := 0, team := team_name } }

def addSucceeded : Except String LeagueState → Bool
  | Except.ok _ => true
  | Except.error _ => false

def stateOf : Except String LeagueState → Option LeagueState
  | Except.ok s => some s
  | Except.error _ => none

/-- C7 (counterexample): "Player B1" is rostered on Team B of the initial
state, yet adding "Player B1" to Team A succeeds — the duplicate check is
not league-wide — and the existing stats entry is silently reassigned to
Team A. -/
theorem c7_duplicate_check_not_league_wide :
    "Player B1" ∈ (lookupRoster initial_state.teams "Team B").getD [] ∧
    "Player B1" ∉ (lookupRoster initial_state.teams "Team A").getD [] ∧
    addSucceeded (add_player initial_state "Team A" "Player B1") = true ∧
    (stateOf (add_player initial_state "Team A" "Player B1")).map
        (fun s2 => lookupStats s2.player_stats "Player B1") =
      some (some { goals := 0, assists := 0, team := "Team A" }) := by
  decide

/-- C7 (amended): `add_player` fails with the duplicate-name error exactly
when the player already exists on the target team's roster; a name that
exists only on other teams' rosters is accepted. -/
theorem c7_add_player_target_team_only (s : LeagueState) (team_name : Team)
    (new_player : Player) (roster : List Player)
    (hr : lookupRoster s.teams team_name = some roster) :
    (new_player ∈ roster →
       add_player s team_name new_player =
         Except.error (new_player ++ " already exists in " ++ team_name)) ∧
    (new_player ∉ roster → addSucceeded (add_player s team_name new_player) = true) := by
  constructor
  · intro hmem
    simp only [add_player, hr]
    rw [if_pos hmem]
  · intro hmem
    simp only [add_player, hr]
    rw [if_neg hmem]
    rfl

theorem c7_add_player_target_team_only_witness :
    lookupRoster initial_state.teams "Team A" =
      some ["Player A1", "Player A2", "Player A3", "Player A4", "Player A5"] ∧
    ((("Player A1" : Player) ∈
        ["Player A1", "Player A2", "Player A3", "Player A4", "Player A5"] →
        add_player initial_state "Team A" "Player A1" =
          Except.error ("Player A1" ++ " already exists in " ++ "Team A")) ∧
     (("Player A1" : Player) ∉
        ["Player A1", "Player A2", "Player A3", "Player A4", "Player A5"] →
        addSucceeded (add_player initial_state "Team A" "Player A1") = true)) :=
  ⟨by decide,
   c7_add_player_target_team_only initial_state "Team A" "Player A1"
     ["Player A1", "Player A2", "Player A3", "Player A4", "Player A5"] (by decide)⟩

/-- `get_data_file_path` (lines 8-13): the primary file, kept as its base
name (the directory prefix is common to primary and backups). -/
def data_file_name : String := "league_data.json"

/-- The backup filename pattern of `backup_data` (line 86). -/
def backup_file_name (timestamp : String) : String :=
  "league_backup_" ++ timestamp ++ ".json"

/-- `backup_data` (lines 82-105): writes the current four state fields
under the timestamped backup name; the timestamp string also fills the
`backup_created` field (modelled by `SavedData.last_updated`). -/
def backup_data (s : LeagueState) (timestamp : String) : String × SavedData :=
  (backup_file_name timestamp,
   { «matches» := s.«matches»
     league_table := s.league_table
     player_stats := s.player_stats
     teams := s.teams
     last_updated := timestamp })

/-- Inner loop of the stats reset in `clear_all_data` (lines 172-174):
`player_stats[player] = {'goals': 0, 'assists': 0, 'team': team}`. -/
def resetPlayersStats (tm : Team) : List Player → PlayerStats → PlayerStats
  | [], ps => ps
  | p :: rest, ps =>
    resetPlayersStats tm rest (statsAssign ps p { goals := 0, assists := 0, team := tm })

def resetRosterStats : Teams → PlayerStats → PlayerStats
  | [], ps => ps
  | e :: ts, ps => resetRosterStats ts (resetPlayersStats e.1 e.2 ps)

/-- What one `clear_all_data` call produces: the backup file (name and
content, written first), the reset in-memory state, and the snapshot
written by the final `save_data`. -/
structure ClearOutcome where
  backup_filename : String
  backup_content : SavedData
  new_state : LeagueState
  saved_content : SavedData
deriving DecidableEq, Repr

/-- `clear_all_data` (lines 162-179): back up, then reset matches, table
and rostered players' stats, then save. -/
def clear_all_data (s : LeagueState) (backup_ts save_ts : String) : ClearOutcome :=
  let b := backup_data s backup_ts
  let s1 : LeagueState :=
    { s with «matches» := [], league_table := get_default_league_table }
  let s2 : LeagueState :=
    { s1 with player_stats := resetRosterStats s1.teams s1.player_stats }
  { backup_filename := b.1
    backup_content := b.2
    new_state := s2
    saved_content := save_data s2 save_ts }

theorem lookupStats_mapAssign_skip (ps : PlayerStats) (q : Player) (v : PlayerStat)
    (p : Player) (hpq : p ≠ q) :
    lookupStats (ps.map (fun e => if e.1 = q then (e.1, v) else e)) p =
      lookupStats ps p := by
  have hqp : ¬ q = p := fun hh => hpq hh.symm
  induction ps with
  | nil => rfl
  | cons e t ih =>
    by_cases heq : e.1 = q
    · have hep : ¬ (e.1 = p) := fun hh => hpq (hh.symm.trans heq)
      simp [lookupStats, heq, hep, hpq, hqp, ih]
    · by_cases hep : e.1 = p <;> simp [lookupStats, heq, hep, hpq, hqp, ih]

theorem lookupStats_mapAssign_self (ps : PlayerStats) (q : Player) (v : PlayerStat) :
    (lookupStats ps q).isSome →
      lookupStats (ps.map (fun e => if e.1 = q then (e.1, v) else e)) q = some v := by
  induction ps with
  | nil => intro h; simp [lookupStats] at h
  | cons e t ih =>
    intro h
    by_cases heq : e.1 = q
    · simp [lookupStats, heq]
    · have h2 : (lookupStats t q).isSome := by simpa [lookupStats, heq] using h
      simpa [lookupStats, heq] using ih h2

theorem lookupStats_statsAssign_skip (ps : PlayerStats) (q : Player) (v : PlayerStat)
    (p : Player) (hpq : p ≠ q) :
    lookupStats (statsAssign ps q v) p = lookupStats ps p := by
  unfold statsAssign
  by_cases hq : (lookupStats ps q).isSome
  · rw [if_pos hq]
    exact lookupStats_mapAssign_skip ps q v p hpq
  · rw [if_neg hq]
    cases hl : lookupStats ps p with
    | some st => exact lookupStats_append_of_some ps _ p st hl
    | none =>
      rw [lookupStats_append_of_none ps _ p hl]
      have hqp : ¬ q = p := fun hh => hpq hh.symm
      simp [lookupStats, hqp]

theorem lookupStats_statsAssign_self (ps : PlayerStats) (q : Player) (v : PlayerStat) :
    lookupStats (statsAssign ps q v) q = some v := by
  unfold statsAssign
  by_cases hq : (lookupStats ps q).isSome
  · rw [if_pos hq]
    exact lookupStats_mapAssign_self ps q v hq
  · rw [if_neg hq]
    have hl : lookupStats ps q = none := by
      cases h : lookupStats ps q with
      | none => rfl
      | some st => rw [h] at hq; simp at hq
    rw [lookupStats_append_of_none ps _ q hl]
    simp [lookupStats]

theorem resetPlayersStats_zero (tm : Team) (players : List Player) :
    ∀ (ps : PlayerStats) (p : Player),
      (p ∈ players ∨
        ((lookupStats ps p).map PlayerStat.goals = some 0 ∧
         (lookupStats ps p).map PlayerStat.assists = some 0)) →
      (lookupStats (resetPlayersStats tm players ps) p).map PlayerStat.goals = some 0 ∧
      (lookupStats (resetPlayersStats tm players ps) p).map PlayerStat.assists = some 0 := by
  induction players with
  | nil =>
    intro ps p hp
    cases hp with
    | inl h => cases h
    | inr h => exact h
  | cons q rest ih =>
    intro ps p hp
    refine ih (statsAssign ps q { goals := 0, assists := 0, team := tm }) p ?_
    by_cases hpq : p = q
    · subst hpq
      right
      rw [lookupStats_statsAssign_self]
      exact ⟨rfl, rfl⟩
    · rw [lookupStats_statsAssign_skip ps q _ p hpq]
      cases hp with
      | inl h =>
        cases h with
        | head => exact absurd rfl hpq
        | tail _ hh => exact Or.inl hh
      | inr h => exact Or.inr h

theorem resetRosterStats_preserve_zero (ts : Teams) :
    ∀ (ps : PlayerStats) (p : Player),
      ((lookupStats ps p).map PlayerStat.goals = some 0 ∧
       (lookupStats ps p).map PlayerStat.assists = some 0) →
      (lookupStats (resetRosterStats ts ps) p).map PlayerStat.goals = some 0 ∧
      (lookupStats (resetRosterStats ts ps) p).map PlayerStat.assists = some 0 := by
  induction ts with
  | nil => intro ps p h; exact h
  | cons e0 ts ih =>
    intro ps p h
    exact ih _ p (resetPlayersStats_zero e0.1 e0.2 ps p (Or.inr h))

theorem resetRosterStats_zero (ts : Teams) :
    ∀ (ps : PlayerStats) (p : Player) (e : Team × List Player),
      e ∈ ts → p ∈ e.2 →
      (lookupStats (resetRosterStats ts ps) p).map PlayerStat.goals = some 0 ∧
      (lookupStats (resetRosterStats ts ps) p).map PlayerStat.assists = some 0 := by
  induction ts with
  | nil => intro ps p e he _; cases he
  | cons e0 ts ih =>
    intro ps p e he hpe
    by_cases hmem : p ∈ e0.2
    · exact resetRosterStats_preserve_zero ts _ p
        (resetPlayersStats_zero e0.1 e0.2 ps p (Or.inl hmem))
    · have he2 : e ∈ ts := by
        cases he with
        | head => exact absurd hpe hmem
        | tail _ h => exact h
      exact ih _ p e he2 hpe

theorem backup_file_name_ne_data_file_name (ts : String) :
    backup_file_name ts ≠ data_file_name := by
  intro h
  have hlen := congrArg String.length h
  rw [backup_file_name, String.length_append, String.length_append] at hlen
  rw [show ("league_backup_" : String).length = 14 from rfl,
      show ((".json" : String)).length = 5 from rfl,
      show (data_file_name).length = 16 from rfl] at hlen
  omega

theorem default_table_rows_zero (x : Team) (r : StandingsRow)
    (h : lookupTable get_default_league_table x = some r) : r = zeroRow := by
  simp only [get_default_league_table, lookupTable] at h
  split_ifs at h <;> (cases h; rfl)

/-- C9: `clear_all_data` first writes a backup file, whose timestamped
name differs from the primary file name, with the pre-reset state as
content; the reset state has no matches, the zeroed default league table
(every row zero), and zeroed stats for every rostered player; the final
save persists exactly the reset state. -/
theorem c9_clear_all (s : LeagueState) (backup_ts save_ts : String) :
    (clear_all_data s backup_ts save_ts).backup_filename ≠ data_file_name ∧
    (clear_all_data s backup_ts save_ts).backup_filename =
      backup_file_name backup_ts ∧
    (clear_all_data s backup_ts save_ts).backup_content =
      { «matches» := s.«matches», league_table := s.league_table
        player_stats := s.player_stats, teams := s.teams
        last_updated := backup_ts } ∧
    (clear_all_data s backup_ts save_ts).new_state.«matches» = [] ∧
    (clear_all_data s backup_ts save_ts).new_state.league_table =
      get_default_league_table ∧
    (∀ x r, lookupTable (clear_all_data s backup_ts save_ts).new_state.league_table x =
        some r → r = zeroRow) ∧
    (∀ e ∈ s.teams, ∀ p ∈ e.2,
       (lookupStats (clear_all_data s backup_ts save_ts).new_state.player_stats p).map
           PlayerStat.goals = some 0 ∧
       (lookupStats (clear_all_data s backup_ts save_ts).new_state.player_stats p).map
           PlayerStat.assists = some 0) ∧
    (clear_all_data s backup_ts save_ts).saved_content =
      save_data (clear_all_data s backup_ts save_ts).new_state save_ts := by
  refine ⟨backup_file_name_ne_data_file_name backup_ts, rfl, rfl, rfl, rfl, ?_, ?_, rfl⟩
  · intro x r h
    exact default_table_rows_zero x r h
  · intro e he p hpe
    exact resetRosterStats_zero s.teams s.player_stats p e he hpe

theorem c9_clear_all_witness :
    (clear_all_data initial_state "20240101_000000" "2024-01-01T00:00:01").backup_filename ≠
      data_file_name ∧
    (clear_all_data initial_state "20240101_000000" "2024-01-01T00:00:01").new_state.«matches» =
      [] ∧
    (clear_all_data initial_state "20240101_000000" "2024-01-01T00:00:01").new_state.league_table =
      get_default_league_table ∧
    ("Team A", ["Player A1", "Player A2", "Player A3", "Player A4", "Player A5"]) ∈
      initial_state.teams ∧
    "Player A1" ∈ ["Player A1", "Player A2", "Player A3", "Player A4", "Player A5"] ∧
    (lookupStats (clear_all_data initial_state "20240101_000000"
        "2024-01-01T00:00:01").new_state.player_stats "Player A1").map
      PlayerStat.goals = some 0 :=
  ⟨(c9_clear_all initial_state "20240101_000000" "2024-01-01T00:00:01").1,
   (c9_clear_all initial_state "20240101_000000" "2024-01-01T00:00:01").2.2.2.1,
   (c9_clear_all initial_state "20240101_000000" "2024-01-01T00:00:01").2.2.2.2.1,
   by decide, by decide,
   ((c9_clear_all initial_state "20240101_000000" "2024-01-01T00:00:01").2.2.2.2.2.2.1
      ("Team A", ["Player A1", "Player A2", "Player A3", "Player A4", "Player A5"])
      (by decide) "Player A1" (by decide)).1⟩

end FootballLeague
